import Mathlib

/-
Verification of the SimpleNetManager connection-state supervisor.

The development shallowly embeds `src/SimpleNetManager.cpp` (namespace
SimpleNet): the three-state reconnection machine (`loop`), the attempt
procedure (`connect`), the two `begin` overloads, and the retry-interval
setter.  Machine integers follow the AVR C++ semantics: `millis()` and
`_lastConnectionAttempt` are `unsigned long` (32-bit, wrapping), and
`_connectionInterval` is a signed `long` that the comparison at line 91
converts to `unsigned long` (the usual arithmetic conversions make
`millis() - _lastConnectionAttempt >= _connectionInterval` an unsigned
32-bit comparison).  External effects (the Ethernet library and the
debug stream) are modelled as per-call inputs in `StepEnv`; callback
function pointers are modelled by their null test plus an invocation
count in the step result.
-/

namespace SimpleNet

/-- 2^32, the modulus of `unsigned long` on the AVR target. -/
def U32 : Nat := 4294967296

/-- `unsigned long` subtraction `a - b` (wraps modulo 2^32). -/
def sub32 (a b : Nat) : Nat := (U32 + a % U32 - b % U32) % U32

/-- Conversion of a signed `long` value to `unsigned long` (modulo 2^32),
as performed implicitly by the comparison in `loop` line 91 and the
subtraction in `begin` lines 54 and 77. -/
def u32ofLong (v : Int) : Nat := (v % (U32 : Int)).toNat

/-- `NetState` from SimpleNetManager.h. -/
inductive NetState where
  | NET_DISCONNECTED
  | NET_CONNECTING
  | NET_CONNECTED
deriving DecidableEq

/-- `LinkStatus` of the Arduino Ethernet library: `Ethernet.linkStatus()`
returns Unknown, LinkON or LinkOFF; the code only tests against LinkON. -/
inductive LinkStatus where
  | Unknown
  | LinkON
  | LinkOFF
deriving DecidableEq

/-- Arduino `IPAddress`: four octets. -/
structure IPAddress where
  o1 : Nat
  o2 : Nat
  o3 : Nat
  o4 : Nat
deriving DecidableEq

/-- `IPAddress(0,0,0,0)`, the failure value tested at line 160. -/
def IPAddress.zero : IPAddress := ⟨0, 0, 0, 0⟩

/-- The mutable fields of a `SimpleNetManager` object (SimpleNetManager.h,
private section).  The two callback pointers are modelled by whether they
are non-null; `_client`, `_csPin` and `_debugStream` do not influence the
state machine and are omitted. -/
structure SimpleNetManager where
  mac : List Nat
  ip : IPAddress
  dns : IPAddress
  gateway : IPAddress
  subnet : IPAddress
  use_static_ip : Bool
  currentState : NetState
  lastConnectionAttempt : Nat
  connectionInterval : Int
  onConnectSet : Bool
  onDisconnectSet : Bool
deriving DecidableEq

/-- The environment a single `loop()` call observes: the `millis()` values
read at lines 91, 135 and 124, and the responses of the Ethernet library
(`maintain()` line 102, `linkStatus()` lines 108 and 147, the `begin(mac)`
DHCP result line 154, and `localIP()` line 160). -/
structure StepEnv where
  nowGate : Nat
  nowConnect : Nat
  nowDisc : Nat
  maintainStatus : Nat
  linkLoop : LinkStatus
  linkConnect : LinkStatus
  dhcpBeginResult : Int
  localIP : IPAddress
deriving DecidableEq

/-- The full constructor (SimpleNetManager.cpp lines 29-39): state
DISCONNECTED, DHCP mode, `_lastConnectionAttempt = 0`, no callbacks; the
retry interval carries its field initializer 10000. -/
def initMgr (mac : List Nat) : SimpleNetManager :=
  { mac := mac
    ip := IPAddress.zero
    dns := IPAddress.zero
    gateway := IPAddress.zero
    subnet := IPAddress.zero
    use_static_ip := false
    currentState := NetState.NET_DISCONNECTED
    lastConnectionAttempt := 0
    connectionInterval := 10000
    onConnectSet := false
    onDisconnectSet := false }

/-- `SimpleNetManager::connect` (lines 134-171).  Records the attempt
time, then configures the interface: STATIC mode checks the link
immediately and sets CONNECTED or DISCONNECTED; DHCP mode requires
`Ethernet.begin(mac) == 1` and a non-zero `localIP()`. -/
def connect (m : SimpleNetManager) (e : StepEnv) : SimpleNetManager :=
  let m1 := { m with lastConnectionAttempt := e.nowConnect % U32 }
  if m1.use_static_ip then
    if e.linkConnect = LinkStatus.LinkON then
      { m1 with currentState := NetState.NET_CONNECTED }
    else
      { m1 with currentState := NetState.NET_DISCONNECTED }
  else
    if e.dhcpBeginResult = 1 ∧ e.localIP ≠ IPAddress.zero then
      { m1 with currentState := NetState.NET_CONNECTED }
    else
      { m1 with currentState := NetState.NET_DISCONNECTED }

/-- Result of one `loop()` call: the updated object, the returned state,
whether `connect()` was invoked, and how many times each callback fired. -/
structure StepResult where
  mgr : SimpleNetManager
  ret : NetState
  attempted : Bool
  onConnectFired : Nat
  onDisconnectFired : Nat
deriving DecidableEq

/-- The `switch` of `SimpleNetManager::loop` (lines 89-113): the per-state
logic before the callback section.  The Bool records whether `connect()`
was invoked. -/
def loopSwitch (m : SimpleNetManager) (e : StepEnv) : SimpleNetManager × Bool :=
  match m.currentState with
  | NetState.NET_DISCONNECTED =>
      if sub32 e.nowGate m.lastConnectionAttempt ≥ u32ofLong m.connectionInterval then
        (connect { m with currentState := NetState.NET_CONNECTING } e, true)
      else
        (m, false)
  | NetState.NET_CONNECTING =>
      (m, false)
  | NetState.NET_CONNECTED =>
      let m1 :=
        if e.maintainStatus = 1 ∨ e.maintainStatus = 3 then
          { m with currentState := NetState.NET_DISCONNECTED }
        else m
      let m2 :=
        if e.linkLoop ≠ LinkStatus.LinkON then
          { m1 with currentState := NetState.NET_DISCONNECTED }
        else m1
      (m2, false)

/-- `SimpleNetManager::loop` (lines 86-129): per-state switch, then the
transition-edge callback section (lines 115-126), then return the current
state. -/
def loop (m : SimpleNetManager) (e : StepEnv) : StepResult :=
  let previousState := m.currentState
  let p := loopSwitch m e
  let m1 := p.1
  if m1.currentState ≠ previousState then
    if m1.currentState = NetState.NET_CONNECTED then
      { mgr := m1
        ret := m1.currentState
        attempted := p.2
        onConnectFired := if m1.onConnectSet then 1 else 0
        onDisconnectFired := 0 }
    else if m1.currentState = NetState.NET_DISCONNECTED ∧
        previousState = NetState.NET_CONNECTED then
      { mgr := { m1 with lastConnectionAttempt := e.nowDisc % U32 }
        ret := m1.currentState
        attempted := p.2
        onConnectFired := 0
        onDisconnectFired := if m1.onDisconnectSet then 1 else 0 }
    else
      { mgr := m1
        ret := m1.currentState
        attempted := p.2
        onConnectFired := 0
        onDisconnectFired := 0 }
  else
    { mgr := m1
      ret := m1.currentState
      attempted := p.2
      onConnectFired := 0
      onDisconnectFired := 0 }

/-- `SimpleNetManager::begin()` (lines 44-58), DHCP initialization:
clears the static flag and sets `_lastConnectionAttempt` to
`millis() - _connectionInterval` in unsigned 32-bit arithmetic. -/
def beginDhcp (m : SimpleNetManager) (now : Nat) : SimpleNetManager :=
  { m with
    use_static_ip := false
    lastConnectionAttempt := sub32 now (u32ofLong m.connectionInterval) }

/-- `SimpleNetManager::begin(ip, dns, gateway, subnet)` (lines 63-81),
static-IP initialization: sets the static flag and addresses and performs
the same timestamp reset. -/
def beginStatic (m : SimpleNetManager) (ip dns gateway subnet : IPAddress)
    (now : Nat) : SimpleNetManager :=
  { m with
    use_static_ip := true
    ip := ip
    dns := dns
    gateway := gateway
    subnet := subnet
    lastConnectionAttempt := sub32 now (u32ofLong m.connectionInterval) }

/-- `SimpleNetManager::setConnectionRetryInterval` (lines 191-193):
stores the `long` argument unvalidated. -/
def setConnectionRetryInterval (m : SimpleNetManager) (interval : Int) :
    SimpleNetManager :=
  { m with connectionInterval := interval }

/-- `SimpleNetManager::isConnected` (lines 177-179). -/
def isConnected (m : SimpleNetManager) : Bool :=
  m.currentState = NetState.NET_CONNECTED

/-- A sequence of `loop()` calls: returns the final object and the list
of states returned by the successive calls. -/
def runSteps (m : SimpleNetManager) : List StepEnv → SimpleNetManager × List NetState
  | [] => (m, [])
  | e :: es =>
      let r := loop m e
      let rest := runSteps r.mgr es
      (rest.1, r.ret :: rest.2)

/-- The attempt procedure always resolves the state: `connect` never
leaves the object in NET_CONNECTING. -/
theorem connect_resolves (m : SimpleNetManager) (e : StepEnv) :
    (connect m e).currentState ≠ NetState.NET_CONNECTING := by
  unfold connect
  by_cases hu : m.use_static_ip = true <;>
    by_cases hl : e.linkConnect = LinkStatus.LinkON <;>
    by_cases hd : e.dhcpBeginResult = 1 ∧ e.localIP ≠ IPAddress.zero <;>
    simp [hu, hl, hd]

/-- The switch of `loop` preserves the absence of NET_CONNECTING. -/
theorem loopSwitch_not_connecting (m : SimpleNetManager) (e : StepEnv)
    (h : m.currentState ≠ NetState.NET_CONNECTING) :
    (loopSwitch m e).1.currentState ≠ NetState.NET_CONNECTING := by
  unfold loopSwitch
  cases hs : m.currentState with
  | NET_DISCONNECTED =>
      dsimp only
      split
      · exact connect_resolves _ e
      · simp [hs]
  | NET_CONNECTING => exact absurd hs h
  | NET_CONNECTED =>
      dsimp only
      split <;> split <;> simp [hs]

/-- The callback section of `loop` does not change the state: both the
returned state and the stored state equal the state the switch produced. -/
theorem loop_state_eq_switch (m : SimpleNetManager) (e : StepEnv) :
    (loop m e).mgr.currentState = (loopSwitch m e).1.currentState ∧
    (loop m e).ret = (loopSwitch m e).1.currentState := by
  unfold loop
  dsimp only
  split
  · split
    · simp
    · split <;> simp
  · simp

/-- A `loop()` call in NET_DISCONNECTED whose retry gate is closed is a
complete no-op: no attempt, no callback, the object unchanged. -/
theorem loop_gate_closed (m : SimpleNetManager) (e : StepEnv)
    (hs : m.currentState = NetState.NET_DISCONNECTED)
    (hlt : sub32 e.nowGate m.lastConnectionAttempt <
      u32ofLong m.connectionInterval) :
    loop m e = ⟨m, NetState.NET_DISCONNECTED, false, 0, 0⟩ := by
  unfold loop loopSwitch
  simp [hs, Nat.not_le.mpr hlt]

/-- A `loop()` call in NET_DISCONNECTED with an open gate, DHCP mode, and
a failing acquisition (begin result not 1, or a zero local address):
the attempt fires, records its time, and falls back to NET_DISCONNECTED
with no callback. -/
theorem loop_dhcp_attempt_fails (m : SimpleNetManager) (e : StepEnv)
    (hs : m.currentState = NetState.NET_DISCONNECTED)
    (hmode : m.use_static_ip = false)
    (hge : sub32 e.nowGate m.lastConnectionAttempt ≥
      u32ofLong m.connectionInterval)
    (hfail : ¬(e.dhcpBeginResult = 1 ∧ e.localIP ≠ IPAddress.zero)) :
    loop m e = ⟨{ m with lastConnectionAttempt := e.nowConnect % U32 },
      NetState.NET_DISCONNECTED, true, 0, 0⟩ := by
  unfold loop loopSwitch connect
  simp [hs, hmode, hge, hfail]

/-- A `loop()` call in NET_DISCONNECTED with an open gate, DHCP mode, and
a successful acquisition: the attempt fires, the state becomes
NET_CONNECTED, and `onConnect` fires when registered. -/
theorem loop_dhcp_attempt_succeeds (m : SimpleNetManager) (e : StepEnv)
    (hs : m.currentState = NetState.NET_DISCONNECTED)
    (hmode : m.use_static_ip = false)
    (hge : sub32 e.nowGate m.lastConnectionAttempt ≥
      u32ofLong m.connectionInterval)
    (hok : e.dhcpBeginResult = 1 ∧ e.localIP ≠ IPAddress.zero) :
    loop m e = ⟨{ m with
        lastConnectionAttempt := e.nowConnect % U32
        currentState := NetState.NET_CONNECTED },
      NetState.NET_CONNECTED, true, if m.onConnectSet then 1 else 0, 0⟩ := by
  unfold loop loopSwitch connect
  simp [hs, hmode, hge, hok.1, hok.2]

/-- A `loop()` call in NET_DISCONNECTED with an open gate and STATIC
mode: the attempt fires and the immediate link check decides the state;
`onConnect` fires only in the link-up case. -/
theorem loop_static_attempt (m : SimpleNetManager) (e : StepEnv)
    (hs : m.currentState = NetState.NET_DISCONNECTED)
    (hmode : m.use_static_ip = true)
    (hge : sub32 e.nowGate m.lastConnectionAttempt ≥
      u32ofLong m.connectionInterval) :
    loop m e =
      if e.linkConnect = LinkStatus.LinkON then
        ⟨{ m with
            lastConnectionAttempt := e.nowConnect % U32
            currentState := NetState.NET_CONNECTED },
          NetState.NET_CONNECTED, true, if m.onConnectSet then 1 else 0, 0⟩
      else
        ⟨{ m with lastConnectionAttempt := e.nowConnect % U32 },
          NetState.NET_DISCONNECTED, true, 0, 0⟩ := by
  unfold loop loopSwitch connect
  by_cases hl : e.linkConnect = LinkStatus.LinkON <;> simp [hs, hmode, hge, hl]

/-- A `loop()` call in NET_CONNECTED: a maintain result of 1 or 3, or a
link status other than LinkON, forces NET_DISCONNECTED, firing
`onDisconnect` when registered and resetting the attempt timestamp;
otherwise the call is a no-op. -/
theorem loop_connected (m : SimpleNetManager) (e : StepEnv)
    (hs : m.currentState = NetState.NET_CONNECTED) :
    loop m e =
      if e.maintainStatus = 1 ∨ e.maintainStatus = 3 ∨
          e.linkLoop ≠ LinkStatus.LinkON then
        ⟨{ m with
            currentState := NetState.NET_DISCONNECTED
            lastConnectionAttempt := e.nowDisc % U32 },
          NetState.NET_DISCONNECTED, false, 0,
          if m.onDisconnectSet then 1 else 0⟩
      else
        ⟨m, NetState.NET_CONNECTED, false, 0, 0⟩ := by
  unfold loop loopSwitch
  by_cases hm : e.maintainStatus = 1 ∨ e.maintainStatus = 3 <;>
    by_cases hl : e.linkLoop = LinkStatus.LinkON <;>
    simp [hs, hm, hl]

/-- A `loop()` call that starts in NET_CONNECTING is a complete no-op
(the switch case is empty and no transition is seen). -/
theorem loop_connecting (m : SimpleNetManager) (e : StepEnv)
    (hs : m.currentState = NetState.NET_CONNECTING) :
    loop m e = ⟨m, NetState.NET_CONNECTING, false, 0, 0⟩ := by
  unfold loop loopSwitch
  simp [hs]

/-- `loop` reports an attempt exactly when its switch invoked `connect`. -/
theorem loop_attempted_eq_switch (m : SimpleNetManager) (e : StepEnv) :
    (loop m e).attempted = (loopSwitch m e).2 := by
  unfold loop
  dsimp only
  split
  · split
    · rfl
    · split <;> rfl
  · rfl

/-- C1: for every sequence of `loop()` calls starting from a state other
than NET_CONNECTING (in particular from the freshly constructed object),
every state returned by a call and the state stored between calls is
NET_DISCONNECTED or NET_CONNECTED, never NET_CONNECTING: whenever a call
sets NET_CONNECTING, the `connect` it invokes in the same call resolves
it before `loop` returns. -/
theorem c1_connecting_never_observable (m : SimpleNetManager)
    (es : List StepEnv) (h : m.currentState ≠ NetState.NET_CONNECTING) :
    (runSteps m es).1.currentState ≠ NetState.NET_CONNECTING ∧
      NetState.NET_CONNECTING ∉ (runSteps m es).2 := by
  induction es generalizing m with
  | nil => simpa [runSteps] using h
  | cons e es ih =>
      have hstep := loop_state_eq_switch m e
      have hns := loopSwitch_not_connecting m e h
      have h1 : (loop m e).mgr.currentState ≠ NetState.NET_CONNECTING := by
        rw [hstep.1]; exact hns
      have h2 : (loop m e).ret ≠ NetState.NET_CONNECTING := by
        rw [hstep.2]; exact hns
      have hrest := ih (loop m e).mgr h1
      refine ⟨hrest.1, ?_⟩
      simp only [runSteps, List.mem_cons]
      push_neg
      exact ⟨fun hc => h2 hc.symm, hrest.2⟩

/-- C1 witness: a concrete two-call run (a successful DHCP attempt, then
a maintenance step) from the freshly constructed object never exposes
NET_CONNECTING. -/
theorem c1_connecting_never_observable_witness :
    (runSteps (initMgr [0, 1, 2, 3, 4, 5])
        [⟨10000, 10000, 10000, 0, LinkStatus.LinkON, LinkStatus.LinkON, 1,
            ⟨10, 0, 0, 5⟩⟩,
          ⟨10500, 10500, 10500, 0, LinkStatus.LinkON, LinkStatus.LinkON, 1,
            ⟨10, 0, 0, 5⟩⟩]).1.currentState ≠ NetState.NET_CONNECTING ∧
      NetState.NET_CONNECTING ∉
        (runSteps (initMgr [0, 1, 2, 3, 4, 5])
          [⟨10000, 10000, 10000, 0, LinkStatus.LinkON, LinkStatus.LinkON, 1,
              ⟨10, 0, 0, 5⟩⟩,
            ⟨10500, 10500, 10500, 0, LinkStatus.LinkON, LinkStatus.LinkON, 1,
              ⟨10, 0, 0, 5⟩⟩]).2 :=
  c1_connecting_never_observable (initMgr [0, 1, 2, 3, 4, 5]) _ (by decide)

/-- C2: with `retryIntervalMs = T` and failing DHCP acquisition, a
`loop()` call whose gate `now - lastAttemptTimestamp >= retryIntervalMs`
(unsigned 32-bit) is open makes an attempt that fails back to
NET_DISCONNECTED and stamps `lastAttemptTimestamp`; every subsequent
call whose elapsed time since that stamp is below T is a complete no-op
(no attempt, object unchanged, over any such sequence of calls), and a
call whose elapsed time reaches T attempts again. -/
theorem c2_retry_interval_gates_attempts (m : SimpleNetManager)
    (e1 : StepEnv) (T : Int)
    (hT : m.connectionInterval = T)
    (hs : m.currentState = NetState.NET_DISCONNECTED)
    (hmode : m.use_static_ip = false)
    (hgate : sub32 e1.nowGate m.lastConnectionAttempt ≥ u32ofLong T)
    (hfail : e1.dhcpBeginResult ≠ 1) :
    (loop m e1).attempted = true ∧
    (loop m e1).mgr.currentState = NetState.NET_DISCONNECTED ∧
    (loop m e1).mgr.lastConnectionAttempt = e1.nowConnect % U32 ∧
    (∀ e2 : StepEnv,
      sub32 e2.nowGate (e1.nowConnect % U32) < u32ofLong T →
        loop (loop m e1).mgr e2 =
          ⟨(loop m e1).mgr, NetState.NET_DISCONNECTED, false, 0, 0⟩) ∧
    (∀ es : List StepEnv,
      (∀ e ∈ es, sub32 e.nowGate (e1.nowConnect % U32) < u32ofLong T) →
        runSteps (loop m e1).mgr es =
          ((loop m e1).mgr, es.map fun _ => NetState.NET_DISCONNECTED)) ∧
    (∀ e3 : StepEnv,
      sub32 e3.nowGate (e1.nowConnect % U32) ≥ u32ofLong T →
        (loop (loop m e1).mgr e3).attempted = true) := by
  have hL := loop_dhcp_attempt_fails m e1 hs hmode (by rwa [hT])
    (fun hc => hfail hc.1)
  rw [hL]
  refine ⟨rfl, hs, rfl, ?_, ?_, ?_⟩
  · intro e2 h2
    exact loop_gate_closed _ e2 hs (by simpa [hT] using h2)
  · intro es hes
    induction es with
    | nil => simp [runSteps]
    | cons e es ih =>
        have h2 := loop_gate_closed
          { m with lastConnectionAttempt := e1.nowConnect % U32 } e hs
          (by simpa [hT] using hes e (List.mem_cons_self e es))
        simp only [runSteps, h2, List.map_cons]
        have := ih fun x hx => hes x (List.mem_cons_of_mem e hx)
        simp [this]
  · intro e3 h3
    rw [loop_attempted_eq_switch]
    unfold loopSwitch
    simp [hs, hT, h3]

/-- C2 witness: interval 10000, a failed attempt at time 10000, a no-op
call at time 15000, and a fresh attempt at time 20000. -/
theorem c2_retry_interval_gates_attempts_witness :
    (loop (initMgr [0, 1, 2, 3, 4, 5])
        ⟨10000, 10000, 10000, 0, LinkStatus.LinkON, LinkStatus.LinkON, 0,
          IPAddress.zero⟩).attempted = true ∧
    (loop (initMgr [0, 1, 2, 3, 4, 5])
        ⟨10000, 10000, 10000, 0, LinkStatus.LinkON, LinkStatus.LinkON, 0,
          IPAddress.zero⟩).mgr.currentState = NetState.NET_DISCONNECTED ∧
    (loop (initMgr [0, 1, 2, 3, 4, 5])
        ⟨10000, 10000, 10000, 0, LinkStatus.LinkON, LinkStatus.LinkON, 0,
          IPAddress.zero⟩).mgr.lastConnectionAttempt = 10000 % U32 ∧
    (∀ e2 : StepEnv,
      sub32 e2.nowGate (10000 % U32) < u32ofLong 10000 →
        loop (loop (initMgr [0, 1, 2, 3, 4, 5])
            ⟨10000, 10000, 10000, 0, LinkStatus.LinkON, LinkStatus.LinkON, 0,
              IPAddress.zero⟩).mgr e2 =
          ⟨(loop (initMgr [0, 1, 2, 3, 4, 5])
              ⟨10000, 10000, 10000, 0, LinkStatus.LinkON, LinkStatus.LinkON,
                0, IPAddress.zero⟩).mgr,
            NetState.NET_DISCONNECTED, false, 0, 0⟩) ∧
    (∀ es : List StepEnv,
      (∀ e ∈ es, sub32 e.nowGate (10000 % U32) < u32ofLong 10000) →
        runSteps (loop (initMgr [0, 1, 2, 3, 4, 5])
            ⟨10000, 10000, 10000, 0, LinkStatus.LinkON, LinkStatus.LinkON, 0,
              IPAddress.zero⟩).mgr es =
          ((loop (initMgr [0, 1, 2, 3, 4, 5])
              ⟨10000, 10000, 10000, 0, LinkStatus.LinkON, LinkStatus.LinkON,
                0, IPAddress.zero⟩).mgr,
            es.map fun _ => NetState.NET_DISCONNECTED)) ∧
    (∀ e3 : StepEnv,
      sub32 e3.nowGate (10000 % U32) ≥ u32ofLong 10000 →
        (loop (loop (initMgr [0, 1, 2, 3, 4, 5])
            ⟨10000, 10000, 10000, 0, LinkStatus.LinkON, LinkStatus.LinkON, 0,
              IPAddress.zero⟩).mgr e3).attempted = true) :=
  c2_retry_interval_gates_attempts (initMgr [0, 1, 2, 3, 4, 5])
    ⟨10000, 10000, 10000, 0, LinkStatus.LinkON, LinkStatus.LinkON, 0,
      IPAddress.zero⟩ 10000
    (by decide) (by decide) (by decide) (by decide) (by decide)

/-- In NET_DISCONNECTED, a `loop()` call attempts exactly when the
unsigned 32-bit elapsed time reaches the interval converted to
`unsigned long`. -/
theorem loop_attempted_iff (m : SimpleNetManager) (e : StepEnv)
    (hs : m.currentState = NetState.NET_DISCONNECTED) :
    (loop m e).attempted = true ↔
      sub32 e.nowGate m.lastConnectionAttempt ≥
        u32ofLong m.connectionInterval := by
  rw [loop_attempted_eq_switch]
  unfold loopSwitch
  simp only [hs]
  split_ifs with h <;> simp [h]

/-- C3: in a `loop()` call that starts in NET_CONNECTED, a maintain
result of 1 (renew failed) or 3 (rebind failed), or a link status other
than LinkON, each alone forces the transition to NET_DISCONNECTED; the
registered `onDisconnect` callback fires exactly once (and `onConnect`
does not fire). -/
theorem c3_connected_failure_disconnects (m : SimpleNetManager)
    (e : StepEnv) (hs : m.currentState = NetState.NET_CONNECTED)
    (hfailure : e.maintainStatus = 1 ∨ e.maintainStatus = 3 ∨
      e.linkLoop ≠ LinkStatus.LinkON) :
    (loop m e).mgr.currentState = NetState.NET_DISCONNECTED ∧
    (loop m e).ret = NetState.NET_DISCONNECTED ∧
    (loop m e).onDisconnectFired =
      (if m.onDisconnectSet then 1 else 0) ∧
    (loop m e).onConnectFired = 0 := by
  rw [loop_connected m e hs, if_pos hfailure]
  exact ⟨rfl, rfl, rfl, rfl⟩

/-- C3 witness: a connected manager with a registered `onDisconnect`
whose maintain call reports 3 (rebind failed) drops to NET_DISCONNECTED
and fires `onDisconnect` once. -/
theorem c3_connected_failure_disconnects_witness :
    (loop { initMgr [0, 1, 2, 3, 4, 5] with
        currentState := NetState.NET_CONNECTED, onDisconnectSet := true }
      ⟨20000, 20000, 20000, 3, LinkStatus.LinkON, LinkStatus.LinkON, 1,
        ⟨10, 0, 0, 5⟩⟩).mgr.currentState = NetState.NET_DISCONNECTED ∧
    (loop { initMgr [0, 1, 2, 3, 4, 5] with
        currentState := NetState.NET_CONNECTED, onDisconnectSet := true }
      ⟨20000, 20000, 20000, 3, LinkStatus.LinkON, LinkStatus.LinkON, 1,
        ⟨10, 0, 0, 5⟩⟩).ret = NetState.NET_DISCONNECTED ∧
    (loop { initMgr [0, 1, 2, 3, 4, 5] with
        currentState := NetState.NET_CONNECTED, onDisconnectSet := true }
      ⟨20000, 20000, 20000, 3, LinkStatus.LinkON, LinkStatus.LinkON, 1,
        ⟨10, 0, 0, 5⟩⟩).onDisconnectFired = 1 ∧
    (loop { initMgr [0, 1, 2, 3, 4, 5] with
        currentState := NetState.NET_CONNECTED, onDisconnectSet := true }
      ⟨20000, 20000, 20000, 3, LinkStatus.LinkON, LinkStatus.LinkON, 1,
        ⟨10, 0, 0, 5⟩⟩).onConnectFired = 0 :=
  c3_connected_failure_disconnects
    { initMgr [0, 1, 2, 3, 4, 5] with
      currentState := NetState.NET_CONNECTED, onDisconnectSet := true }
    ⟨20000, 20000, 20000, 3, LinkStatus.LinkON, LinkStatus.LinkON, 1,
      ⟨10, 0, 0, 5⟩⟩
    (by decide) (by decide)

/-- C4: in DHCP mode the attempt procedure sets NET_CONNECTED exactly
when `Ethernet.begin(mac)` returned 1 and `localIP()` is non-zero, and
NET_DISCONNECTED otherwise; on a first attempt that succeeds with
address 10.0.0.5, one `loop()` call ends NET_CONNECTED with `onConnect`
fired exactly once. -/
theorem c4_dhcp_success_criterion (m : SimpleNetManager)
    (e escn : StepEnv)
    (hmode : m.use_static_ip = false)
    (hs : m.currentState = NetState.NET_DISCONNECTED)
    (hge : sub32 escn.nowGate m.lastConnectionAttempt ≥
      u32ofLong m.connectionInterval)
    (hdh : escn.dhcpBeginResult = 1)
    (hip : escn.localIP = ⟨10, 0, 0, 5⟩)
    (hcb : m.onConnectSet = true) :
    (connect m e).currentState =
      (if e.dhcpBeginResult = 1 ∧ e.localIP ≠ IPAddress.zero then
        NetState.NET_CONNECTED else NetState.NET_DISCONNECTED) ∧
    (loop m escn).mgr.currentState = NetState.NET_CONNECTED ∧
    (loop m escn).onConnectFired = 1 := by
  have hok : escn.dhcpBeginResult = 1 ∧ escn.localIP ≠ IPAddress.zero := by
    refine ⟨hdh, ?_⟩
    rw [hip]
    intro hzero
    exact absurd (congrArg IPAddress.o1 hzero) (by decide)
  refine ⟨?_, ?_⟩
  · unfold connect
    by_cases hc : e.dhcpBeginResult = 1 ∧ e.localIP ≠ IPAddress.zero <;>
      simp [hmode, hc]
  · rw [loop_dhcp_attempt_succeeds m escn hs hmode hge hok]
    simp [hcb]

/-- C4 witness: fresh DHCP manager with a registered `onConnect`, gate
open at 10000 ms, acquisition succeeds with 10.0.0.5. -/
theorem c4_dhcp_success_criterion_witness :
    (connect { initMgr [0, 1, 2, 3, 4, 5] with onConnectSet := true }
      ⟨10000, 10000, 10000, 0, LinkStatus.LinkON, LinkStatus.LinkON, 0,
        IPAddress.zero⟩).currentState =
      (if (0 : Int) = 1 ∧ IPAddress.zero ≠ IPAddress.zero then
        NetState.NET_CONNECTED else NetState.NET_DISCONNECTED) ∧
    (loop { initMgr [0, 1, 2, 3, 4, 5] with onConnectSet := true }
      ⟨10000, 10000, 10000, 0, LinkStatus.LinkON, LinkStatus.LinkON, 1,
        ⟨10, 0, 0, 5⟩⟩).mgr.currentState = NetState.NET_CONNECTED ∧
    (loop { initMgr [0, 1, 2, 3, 4, 5] with onConnectSet := true }
      ⟨10000, 10000, 10000, 0, LinkStatus.LinkON, LinkStatus.LinkON, 1,
        ⟨10, 0, 0, 5⟩⟩).onConnectFired = 1 :=
  c4_dhcp_success_criterion
    { initMgr [0, 1, 2, 3, 4, 5] with onConnectSet := true }
    ⟨10000, 10000, 10000, 0, LinkStatus.LinkON, LinkStatus.LinkON, 0,
      IPAddress.zero⟩
    ⟨10000, 10000, 10000, 0, LinkStatus.LinkON, LinkStatus.LinkON, 1,
      ⟨10, 0, 0, 5⟩⟩
    (by decide) (by decide) (by decide) (by decide) (by decide) (by decide)

/-- C5: in STATIC mode the attempt procedure decides the state by the
immediate link check (up gives NET_CONNECTED, anything else
NET_DISCONNECTED); in the link-down case the `loop()` call ends
NET_DISCONNECTED with neither callback firing. -/
theorem c5_static_link_check (m : SimpleNetManager) (e edown : StepEnv)
    (hmode : m.use_static_ip = true)
    (hs : m.currentState = NetState.NET_DISCONNECTED)
    (hge : sub32 edown.nowGate m.lastConnectionAttempt ≥
      u32ofLong m.connectionInterval)
    (hdown : edown.linkConnect ≠ LinkStatus.LinkON) :
    (connect m e).currentState =
      (if e.linkConnect = LinkStatus.LinkON then
        NetState.NET_CONNECTED else NetState.NET_DISCONNECTED) ∧
    (loop m edown).attempted = true ∧
    (loop m edown).mgr.currentState = NetState.NET_DISCONNECTED ∧
    (loop m edown).onConnectFired = 0 ∧
    (loop m edown).onDisconnectFired = 0 := by
  refine ⟨?_, ?_⟩
  · unfold connect
    by_cases hl : e.linkConnect = LinkStatus.LinkON <;> simp [hmode, hl]
  · rw [loop_static_attempt m edown hs hmode hge, if_neg hdown]
    exact ⟨rfl, hs ▸ rfl, rfl, rfl⟩

/-- C5 witness: static manager, gate open at 10000 ms, link reports OFF
right after configure: no connection, no callback. -/
theorem c5_static_link_check_witness :
    (connect { initMgr [0, 1, 2, 3, 4, 5] with use_static_ip := true }
      ⟨10000, 10000, 10000, 0, LinkStatus.LinkON, LinkStatus.LinkON, 1,
        ⟨10, 0, 0, 5⟩⟩).currentState =
      (if LinkStatus.LinkON = LinkStatus.LinkON then
        NetState.NET_CONNECTED else NetState.NET_DISCONNECTED) ∧
    (loop { initMgr [0, 1, 2, 3, 4, 5] with use_static_ip := true }
      ⟨10000, 10000, 10000, 0, LinkStatus.LinkON, LinkStatus.LinkOFF, 1,
        ⟨10, 0, 0, 5⟩⟩).attempted = true ∧
    (loop { initMgr [0, 1, 2, 3, 4, 5] with use_static_ip := true }
      ⟨10000, 10000, 10000, 0, LinkStatus.LinkON, LinkStatus.LinkOFF, 1,
        ⟨10, 0, 0, 5⟩⟩).mgr.currentState = NetState.NET_DISCONNECTED ∧
    (loop { initMgr [0, 1, 2, 3, 4, 5] with use_static_ip := true }
      ⟨10000, 10000, 10000, 0, LinkStatus.LinkON, LinkStatus.LinkOFF, 1,
        ⟨10, 0, 0, 5⟩⟩).onConnectFired = 0 ∧
    (loop { initMgr [0, 1, 2, 3, 4, 5] with use_static_ip := true }
      ⟨10000, 10000, 10000, 0, LinkStatus.LinkON, LinkStatus.LinkOFF, 1,
        ⟨10, 0, 0, 5⟩⟩).onDisconnectFired = 0 :=
  c5_static_link_check
    { initMgr [0, 1, 2, 3, 4, 5] with use_static_ip := true }
    ⟨10000, 10000, 10000, 0, LinkStatus.LinkON, LinkStatus.LinkON, 1,
      ⟨10, 0, 0, 5⟩⟩
    ⟨10000, 10000, 10000, 0, LinkStatus.LinkON, LinkStatus.LinkOFF, 1,
      ⟨10, 0, 0, 5⟩⟩
    (by decide) (by decide) (by decide) (by decide)

/-- C6: in every `loop()` call, each callback fires at most once, and it
fires exactly on its transition edge: `onConnect` exactly when the call
ends NET_CONNECTED without having started there (and is registered), so
never on a call that both begins and ends NET_CONNECTED; `onDisconnect`
exactly on the CONNECTED-to-DISCONNECTED edge. -/
theorem c6_callbacks_once_per_edge (m : SimpleNetManager) (e : StepEnv) :
    ((loop m e).onConnectFired =
      (if m.onConnectSet = true ∧ (loop m e).ret = NetState.NET_CONNECTED ∧
          m.currentState ≠ NetState.NET_CONNECTED then 1 else 0)) ∧
    ((loop m e).onDisconnectFired =
      (if m.onDisconnectSet = true ∧
          (loop m e).ret = NetState.NET_DISCONNECTED ∧
          m.currentState = NetState.NET_CONNECTED then 1 else 0)) := by
  cases hs : m.currentState with
  | NET_DISCONNECTED =>
      by_cases hg : sub32 e.nowGate m.lastConnectionAttempt ≥
          u32ofLong m.connectionInterval
      · by_cases hmode : m.use_static_ip = true
        · rw [loop_static_attempt m e hs hmode hg]
          by_cases hl : e.linkConnect = LinkStatus.LinkON <;>
            by_cases hc : m.onConnectSet = true <;>
            simp [hl, hc, hs]
        · have hmode2 : m.use_static_ip = false := by
            simpa using hmode
          by_cases hok : e.dhcpBeginResult = 1 ∧ e.localIP ≠ IPAddress.zero
          · rw [loop_dhcp_attempt_succeeds m e hs hmode2 hg hok]
            by_cases hc : m.onConnectSet = true <;> simp [hc, hs]
          · rw [loop_dhcp_attempt_fails m e hs hmode2 hg hok]
            simp [hs]
      · rw [loop_gate_closed m e hs (by omega)]
        simp [hs]
  | NET_CONNECTING =>
      rw [loop_connecting m e hs]
      simp [hs]
  | NET_CONNECTED =>
      rw [loop_connected m e hs]
      by_cases hfail : e.maintainStatus = 1 ∨ e.maintainStatus = 3 ∨
          e.linkLoop ≠ LinkStatus.LinkON
      · by_cases hd : m.onDisconnectSet = true <;> simp [hfail, hd, hs]
      · simp [hfail, hs]

/-- C8: in every `loop()` call, `lastConnectionAttempt` is stamped with
the attempt time exactly when `connect` is invoked, is stamped with the
transition time exactly on the CONNECTED-to-DISCONNECTED edge, and is
unchanged in every other case. -/
theorem c8_lastAttempt_frame (m : SimpleNetManager) (e : StepEnv) :
    (loop m e).mgr.lastConnectionAttempt =
      (if (loop m e).attempted = true then e.nowConnect % U32
      else if m.currentState = NetState.NET_CONNECTED ∧
          (loop m e).ret = NetState.NET_DISCONNECTED then e.nowDisc % U32
      else m.lastConnectionAttempt) := by
  cases hs : m.currentState with
  | NET_DISCONNECTED =>
      by_cases hg : sub32 e.nowGate m.lastConnectionAttempt ≥
          u32ofLong m.connectionInterval
      · by_cases hmode : m.use_static_ip = true
        · rw [loop_static_attempt m e hs hmode hg]
          by_cases hl : e.linkConnect = LinkStatus.LinkON <;> simp [hl, hs]
        · have hmode2 : m.use_static_ip = false := by
            simpa using hmode
          by_cases hok : e.dhcpBeginResult = 1 ∧ e.localIP ≠ IPAddress.zero
          · rw [loop_dhcp_attempt_succeeds m e hs hmode2 hg hok]
            simp [hs]
          · rw [loop_dhcp_attempt_fails m e hs hmode2 hg hok]
            simp [hs]
      · rw [loop_gate_closed m e hs (by omega)]
        simp [hs]
  | NET_CONNECTING =>
      rw [loop_connecting m e hs]
      simp [hs]
  | NET_CONNECTED =>
      rw [loop_connected m e hs]
      by_cases hfail : e.maintainStatus = 1 ∨ e.maintainStatus = 3 ∨
          e.linkLoop ≠ LinkStatus.LinkON
      · simp [hfail, hs]
      · simp [hfail, hs]

/-- The `unsigned long` image of a `long` is below 2^32. -/
theorem u32ofLong_lt (v : Int) : u32ofLong v < U32 := by
  unfold u32ofLong U32
  omega

/-- Undoing the wrapped subtraction: measuring the elapsed time right
after setting the timestamp to `now - b` yields `b` (mod 2^32). -/
theorem sub32_sub32_self (a b : Nat) : sub32 a (sub32 a b) = b % U32 := by
  unfold sub32 U32
  omega

/-- C7: `begin()` selects DHCP mode and `begin(ip, dns, gateway,
subnet)` selects STATIC mode with the given addresses; both set
`lastConnectionAttempt` to `millis() - _connectionInterval` (unsigned
32-bit), so a `loop()` call made at that same `millis()` value in
NET_DISCONNECTED already attempts. -/
theorem c7_begin_resets_timestamp (m : SimpleNetManager)
    (ip dns gateway subnet : IPAddress) (now : Nat) (e : StepEnv)
    (hs : m.currentState = NetState.NET_DISCONNECTED)
    (hnow : e.nowGate = now) :
    (beginDhcp m now).use_static_ip = false ∧
    (beginDhcp m now).lastConnectionAttempt =
      sub32 now (u32ofLong m.connectionInterval) ∧
    (beginStatic m ip dns gateway subnet now).use_static_ip = true ∧
    (beginStatic m ip dns gateway subnet now).ip = ip ∧
    (beginStatic m ip dns gateway subnet now).dns = dns ∧
    (beginStatic m ip dns gateway subnet now).gateway = gateway ∧
    (beginStatic m ip dns gateway subnet now).subnet = subnet ∧
    (beginStatic m ip dns gateway subnet now).lastConnectionAttempt =
      sub32 now (u32ofLong m.connectionInterval) ∧
    (loop (beginDhcp m now) e).attempted = true ∧
    (loop (beginStatic m ip dns gateway subnet now) e).attempted = true := by
  have hgate : sub32 e.nowGate (sub32 now (u32ofLong m.connectionInterval)) ≥
      u32ofLong m.connectionInterval := by
    rw [hnow, sub32_sub32_self,
      Nat.mod_eq_of_lt (u32ofLong_lt m.connectionInterval)]
  refine ⟨rfl, rfl, rfl, rfl, rfl, rfl, rfl, rfl, ?_, ?_⟩
  · rw [loop_attempted_iff (beginDhcp m now) e (by simpa [beginDhcp] using hs)]
    simpa [beginDhcp] using hgate
  · rw [loop_attempted_iff (beginStatic m ip dns gateway subnet now) e
      (by simpa [beginStatic] using hs)]
    simpa [beginStatic] using hgate

/-- C7 witness: a fresh manager reconfigured at 123456 ms attempts on
the very next `loop()` call at 123456 ms, in both modes. -/
theorem c7_begin_resets_timestamp_witness :
    (beginDhcp (initMgr [0, 1, 2, 3, 4, 5]) 123456).use_static_ip = false ∧
    (beginDhcp (initMgr [0, 1, 2, 3, 4, 5]) 123456).lastConnectionAttempt =
      sub32 123456 (u32ofLong (initMgr [0, 1, 2, 3, 4, 5]).connectionInterval) ∧
    (beginStatic (initMgr [0, 1, 2, 3, 4, 5]) ⟨192, 168, 1, 50⟩
      ⟨192, 168, 1, 1⟩ ⟨192, 168, 1, 1⟩ ⟨255, 255, 255, 0⟩
      123456).use_static_ip = true ∧
    (beginStatic (initMgr [0, 1, 2, 3, 4, 5]) ⟨192, 168, 1, 50⟩
      ⟨192, 168, 1, 1⟩ ⟨192, 168, 1, 1⟩ ⟨255, 255, 255, 0⟩
      123456).ip = ⟨192, 168, 1, 50⟩ ∧
    (beginStatic (initMgr [0, 1, 2, 3, 4, 5]) ⟨192, 168, 1, 50⟩
      ⟨192, 168, 1, 1⟩ ⟨192, 168, 1, 1⟩ ⟨255, 255, 255, 0⟩
      123456).dns = ⟨192, 168, 1, 1⟩ ∧
    (beginStatic (initMgr [0, 1, 2, 3, 4, 5]) ⟨192, 168, 1, 50⟩
      ⟨192, 168, 1, 1⟩ ⟨192, 168, 1, 1⟩ ⟨255, 255, 255, 0⟩
      123456).gateway = ⟨192, 168, 1, 1⟩ ∧
    (beginStatic (initMgr [0, 1, 2, 3, 4, 5]) ⟨192, 168, 1, 50⟩
      ⟨192, 168, 1, 1⟩ ⟨192, 168, 1, 1⟩ ⟨255, 255, 255, 0⟩
      123456).subnet = ⟨255, 255, 255, 0⟩ ∧
    (beginStatic (initMgr [0, 1, 2, 3, 4, 5]) ⟨192, 168, 1, 50⟩
      ⟨192, 168, 1, 1⟩ ⟨192, 168, 1, 1⟩ ⟨255, 255, 255, 0⟩
      123456).lastConnectionAttempt =
      sub32 123456 (u32ofLong (initMgr [0, 1, 2, 3, 4, 5]).connectionInterval) ∧
    (loop (beginDhcp (initMgr [0, 1, 2, 3, 4, 5]) 123456)
      ⟨123456, 123456, 123456, 0, LinkStatus.LinkON, LinkStatus.LinkON, 1,
        ⟨10, 0, 0, 5⟩⟩).attempted = true ∧
    (loop (beginStatic (initMgr [0, 1, 2, 3, 4, 5]) ⟨192, 168, 1, 50⟩
        ⟨192, 168, 1, 1⟩ ⟨192, 168, 1, 1⟩ ⟨255, 255, 255, 0⟩ 123456)
      ⟨123456, 123456, 123456, 0, LinkStatus.LinkON, LinkStatus.LinkON, 1,
        ⟨10, 0, 0, 5⟩⟩).attempted = true :=
  c7_begin_resets_timestamp (initMgr [0, 1, 2, 3, 4, 5]) ⟨192, 168, 1, 50⟩
    ⟨192, 168, 1, 1⟩ ⟨192, 168, 1, 1⟩ ⟨255, 255, 255, 0⟩ 123456
    ⟨123456, 123456, 123456, 0, LinkStatus.LinkON, LinkStatus.LinkON, 1,
      ⟨10, 0, 0, 5⟩⟩
    (by decide) (by decide)

/-- C9: neither `begin` overload touches the connection state, the
callback registrations, the MAC, or the retry interval; `begin()` also
leaves the stored static addresses alone.  In particular a `begin` call
made while NET_CONNECTED leaves the machine NET_CONNECTED. -/
theorem c9_begin_frame (m : SimpleNetManager)
    (ip dns gateway subnet : IPAddress) (now : Nat) :
    (beginDhcp m now).currentState = m.currentState ∧
    (beginDhcp m now).onConnectSet = m.onConnectSet ∧
    (beginDhcp m now).onDisconnectSet = m.onDisconnectSet ∧
    (beginDhcp m now).mac = m.mac ∧
    (beginDhcp m now).connectionInterval = m.connectionInterval ∧
    (beginDhcp m now).ip = m.ip ∧
    (beginDhcp m now).dns = m.dns ∧
    (beginDhcp m now).gateway = m.gateway ∧
    (beginDhcp m now).subnet = m.subnet ∧
    (beginStatic m ip dns gateway subnet now).currentState =
      m.currentState ∧
    (beginStatic m ip dns gateway subnet now).onConnectSet =
      m.onConnectSet ∧
    (beginStatic m ip dns gateway subnet now).onDisconnectSet =
      m.onDisconnectSet ∧
    (beginStatic m ip dns gateway subnet now).mac = m.mac ∧
    (beginStatic m ip dns gateway subnet now).connectionInterval =
      m.connectionInterval :=
  ⟨rfl, rfl, rfl, rfl, rfl, rfl, rfl, rfl, rfl, rfl, rfl, rfl, rfl, rfl⟩

/-- C10: `setConnectionRetryInterval` stores any `long` unvalidated, and
the gate compares the wrapped 32-bit elapsed time with the interval
converted to `unsigned long`: a negative interval `v` admits an attempt
exactly when the elapsed value reaches `2^32 + v`, while interval 0 lets
every NET_DISCONNECTED call attempt. -/
theorem c10_interval_conversion (m m0 m1 : SimpleNetManager)
    (v w : Int) (e e0 : StepEnv)
    (hneg : v < 0) (hlb : -(U32 : Int) < v)
    (hv : m.connectionInterval = v)
    (hs : m.currentState = NetState.NET_DISCONNECTED)
    (h0 : m0.connectionInterval = 0)
    (hs0 : m0.currentState = NetState.NET_DISCONNECTED) :
    (setConnectionRetryInterval m1 w).connectionInterval = w ∧
    ((loop m e).attempted = true ↔
      ((sub32 e.nowGate m.lastConnectionAttempt : Int) ≥ (U32 : Int) + v)) ∧
    (loop m0 e0).attempted = true := by
  refine ⟨rfl, ?_, ?_⟩
  · rw [loop_attempted_iff m e hs, hv]
    unfold u32ofLong U32
    unfold U32 at hlb
    constructor <;> intro h <;> omega
  · rw [loop_attempted_iff m0 e0 hs0, h0]
    simp [u32ofLong]

/-- C10 witness: with interval -1 the gate threshold is 2^32 - 1, and a
call at elapsed time 2^32 - 1 meets it; interval 0 admits an attempt
immediately; storing -1 is verbatim. -/
theorem c10_interval_conversion_witness :
    (setConnectionRetryInterval (initMgr [0, 1, 2, 3, 4, 5])
      (-1)).connectionInterval = -1 ∧
    ((loop { initMgr [0, 1, 2, 3, 4, 5] with connectionInterval := -1 }
        ⟨4294967295, 0, 0, 0, LinkStatus.LinkON, LinkStatus.LinkON, 0,
          IPAddress.zero⟩).attempted = true ↔
      ((sub32 4294967295
          { initMgr [0, 1, 2, 3, 4, 5] with
            connectionInterval := -1 }.lastConnectionAttempt : Int) ≥
        (U32 : Int) + -1)) ∧
    (loop { initMgr [0, 1, 2, 3, 4, 5] with connectionInterval := 0 }
      ⟨0, 0, 0, 0, LinkStatus.LinkON, LinkStatus.LinkON, 0,
        IPAddress.zero⟩).attempted = true :=
  c10_interval_conversion
    { initMgr [0, 1, 2, 3, 4, 5] with connectionInterval := -1 }
    { initMgr [0, 1, 2, 3, 4, 5] with connectionInterval := 0 }
    (initMgr [0, 1, 2, 3, 4, 5]) (-1) (-1)
    ⟨4294967295, 0, 0, 0, LinkStatus.LinkON, LinkStatus.LinkON, 0,
      IPAddress.zero⟩
    ⟨0, 0, 0, 0, LinkStatus.LinkON, LinkStatus.LinkON, 0, IPAddress.zero⟩
    (by decide) (by decide) (by decide) (by decide) (by decide) (by decide)

end SimpleNet
